import Mathlib

/-!
Shallow embedding of the order-management module of a restaurant ordering
platform (Express controllers in `backend/controllers/orderController.js`,
routes in `backend/routes/orderRoutes.js`, express-validator middleware in
`backend/middleware/valdation.js`).

Conventions of the embedding:
* JS numeric request fields are modelled as `Option ℚ`; `none` models an
  absent field (so `parseFloat` of it yields NaN and its truthiness is
  false).
* `parseInt(x, 10)` on a numeric value truncates toward zero (`jsTrunc`).
* Persistence is modelled by passing the stored document for the requested
  id in and out of each handler (`Option OrderDoc`): `none` in means no
  order with that id exists, the returned value is what is stored
  afterwards.
* Effectful inputs (`new Date()`, generated ids, the order-number seed)
  are explicit parameters.
-/

/-- JS `parseInt(q, 10)` on a numeric value: truncation toward zero. -/
def jsTrunc (q : ℚ) : ℤ :=
  q.num.tdiv (q.den : ℤ)

/-- `parseInt(v, 10) || d`: an absent value parses to NaN, and both NaN and
`0` are falsy, so they fall back to the default `d`. -/
def jsParseIntOr (v : Option ℚ) (d : ℤ) : ℤ :=
  match v with
  | none => d
  | some q => let z := jsTrunc q; if z = 0 then d else z

/-- JS `String.prototype.trim()`: strip leading and trailing whitespace
(written over the character list so that it evaluates by `decide`). -/
def jsTrim (s : String) : String :=
  String.mk
    (((s.toList.dropWhile Char.isWhitespace).reverse.dropWhile
      Char.isWhitespace).reverse)

/-- JS `String.prototype.toLowerCase()` (ASCII, written over the character
list so that it evaluates by `decide`). -/
def jsToLower (s : String) : String :=
  String.mk (s.toList.map Char.toLower)

/-- Hex digit test, used by the MongoId format check. -/
def isHexDigitChar (c : Char) : Bool :=
  c.isDigit || (('a' ≤ c) && (c ≤ 'f')) || (('A' ≤ c) && (c ≤ 'F'))

/-- `validator.js` `isMongoId`: exactly 24 hex characters. -/
def isMongoId (s : String) : Bool :=
  s.length = 24 && s.toList.all isHexDigitChar

/-- Modelled from the spec: `utils/validationUtils.js` (`isValidOrderStatus`)
is not under `src/`; the spec fixes the order-status enum as one of
placed/preparing/ready/served/canceled/completed, matching the
`validateOrderStatus` middleware's list. -/
def isValidOrderStatus (s : String) : Bool :=
  s ∈ ["placed", "preparing", "ready", "served", "canceled", "completed"]

/-- The payment-status enum, from `orderController.js` line 126. -/
def validPaymentStatuses : List String :=
  ["pending", "paid", "failed", "refunded"]

/-- Payment sub-record of an order document. -/
structure Payment where
  status : String
  method : Option String
  paidAt : Option Nat
  refundedAt : Option Nat
  deriving DecidableEq

/-- A normalized line item as built by `createOrder` (lines 18-24). -/
structure NormItem where
  menuItemId : Option String
  name : String
  price : Option ℚ
  qty : ℤ
  note : String
  deriving DecidableEq

/-- A stored order document. -/
structure OrderDoc where
  oid : String
  tableId : Option String
  customerId : Option String
  orderNumber : String
  items : List NormItem
  totals : ℚ
  status : String
  payment : Payment
  meta : String
  createdAt : Nat
  deriving DecidableEq

/-- Modelled from the spec: `utils/helperUtils.js` (`calculateOrderTotal`)
is not under `src/`; the spec says totals are computed by summing line
items (one ordered quantity of a menu item at order-time price). -/
def calculateOrderTotal (items : List NormItem) : ℚ :=
  items.foldr (fun it acc => (it.price.getD 0) * (it.qty : ℚ) + acc) 0

/-- Modelled from the spec: `utils/helperUtils.js` (`generateOrderNumber`)
is not under `src/`; the spec says order creation generates an order
number. The generator's effect is modelled by an explicit seed. -/
def generateOrderNumber (seed : Nat) : String :=
  "ORD-" ++ toString seed

/-- Modelled from the spec: `models/Order.js` is not under `src/`; the
spec's payment sub-record has status one of pending/paid/failed/refunded,
and a freshly created order (which `createOrder` never gives an explicit
payment) starts in the pending state with no method or timestamps. -/
def defaultPayment : Payment :=
  { status := "pending", method := none, paidAt := none, refundedAt := none }

/-- A raw line item of an order-creation request body. `none` on a numeric
field models its absence. -/
structure RawItem where
  menuItemId : Option String
  name : Option String
  price : Option ℚ
  quantity : Option ℚ
  qty : Option ℚ
  note : Option String
  deriving DecidableEq

/-- The `items` field of an order-creation request body: absent, present
but not an array, or an array of raw items. -/
inductive ItemsField where
  | absent : ItemsField
  | notArray : ItemsField
  | arr : List RawItem → ItemsField
  deriving DecidableEq

/-- An order-creation request body. -/
structure CreateBody where
  tableId : Option String
  items : ItemsField
  meta : Option String
  deriving DecidableEq

/-- `parseInt(it.quantity || it.qty, 10) || 1` (controller line 22): a
falsy `quantity` (absent, or the number 0) falls back to `qty`; a parse
result of NaN or 0 falls back to 1. -/
def jsQty (quantity qtyAlt : Option ℚ) : ℤ :=
  let v : Option ℚ :=
    match quantity with
    | some q => if q = 0 then qtyAlt else some q
    | none => qtyAlt
  match v with
  | none => 1
  | some q => let z := jsTrunc q; if z = 0 then 1 else z

/-- Normalization of one raw item (controller lines 18-24). -/
def normalizeItem (it : RawItem) : NormItem :=
  { menuItemId := it.menuItemId,
    name := jsTrim (it.name.getD ""),
    price := it.price,
    qty := jsQty it.quantity it.qty,
    note := it.note.getD "" }

/-- A per-item validation error of `createOrder` (controller lines 27-38),
carrying the offending index; the message strings are abstracted to their
kind. -/
inductive ItemErr where
  | missingName : Nat → ItemErr
  | invalidPrice : Nat → ItemErr
  | invalidQty : Nat → ItemErr
  deriving DecidableEq

/-- The errors `createOrder` records for the normalized item at index `i`
(controller lines 28-38). `price = none` models a NaN parse; the
`Number.isNaN(it.qty)` disjunct of line 35 can never fire because
`parseInt(...) || 1` already replaced NaN by 1, so only `qty < 1` remains. -/
def errsFor (i : Nat) (it : NormItem) : List ItemErr :=
  (if it.name = "" then [ItemErr.missingName i] else []) ++
  (if (match it.price with | none => true | some p => decide (p ≤ 0)) then
    [ItemErr.invalidPrice i] else []) ++
  (if it.qty < 1 then [ItemErr.invalidQty i] else [])

/-- `forEach` over the normalized items with running index. -/
def itemErrorsFrom (i : Nat) : List NormItem → List ItemErr
  | [] => []
  | it :: rest => errsFor i it ++ itemErrorsFrom (i + 1) rest

/-- All per-item validation errors of `createOrder` (controller lines
27-38). -/
def itemErrors (l : List NormItem) : List ItemErr :=
  itemErrorsFrom 0 l

/-- The data object of a successful creation response (controller lines
67-73). -/
structure CreateData where
  id : String
  orderNumber : String
  status : String
  totals : ℚ
  createdAt : Nat
  deriving DecidableEq

/-- Result of the order-creation endpoint: HTTP status, top-level message,
per-item errors, the success payload, and the document persisted (if any). -/
structure CreateResult where
  status : Nat
  message : String
  errors : List ItemErr
  data : Option CreateData
  saved : Option OrderDoc
  deriving DecidableEq

/-- An authenticated user as seen by the handlers (`req.user`). -/
structure User where
  uid : String
  role : String
  deriving DecidableEq

/-- The `createOrder` controller (lines 11-79). `user` is `req.user`
(absent for guests), `seed` feeds the order-number generator, `newId` is
the id the store assigns, `now` the creation timestamp; the save is
modelled as succeeding. -/
def createOrder (b : CreateBody) (user : Option User) (seed : Nat)
    (newId : String) (now : Nat) : CreateResult :=
  match b.items with
  | ItemsField.arr (it :: rest) =>
    let norm := (it :: rest).map normalizeItem
    let errs := itemErrors norm
    if errs ≠ [] then
      { status := 400, message := "Validation failed", errors := errs,
        data := none, saved := none }
    else
      let totals := calculateOrderTotal norm
      let order : OrderDoc :=
        { oid := newId,
          tableId := b.tableId.map jsTrim,
          customerId := user.map User.uid,
          orderNumber := generateOrderNumber seed,
          items := norm,
          totals := totals,
          status := "placed",
          payment := defaultPayment,
          meta := b.meta.getD "",
          createdAt := now }
      { status := 201, message := "Order placed successfully", errors := [],
        data := some { id := newId, orderNumber := order.orderNumber,
                       status := order.status, totals := order.totals,
                       createdAt := now },
        saved := some order }
  | _ =>
    { status := 400, message := "Order must contain at least one item",
      errors := [], data := none, saved := none }

/-- A validation error raised by the `validateOrder` middleware
(`valdation.js` lines 4-19), abstracted to its kind and index. -/
inductive MwErr where
  | invalidTableId : MwErr
  | itemsNotArray : MwErr
  | invalidMenuItemId : Nat → MwErr
  | invalidQuantity : Nat → MwErr
  deriving DecidableEq

/-- express-validator `isInt({ min: 1 })` on a numeric value: an integer
that is at least 1; an absent value fails (the validator is not optional). -/
def mwQuantityOk (q : Option ℚ) : Bool :=
  match q with
  | some q => q.den = 1 && 1 ≤ q.num
  | none => false

/-- The per-item checks of `validateOrder`: `items.*.menuItemId` must be a
MongoId and `items.*.quantity` an integer ≥ 1. -/
def mwItemErrs (i : Nat) (it : RawItem) : List MwErr :=
  (if (match it.menuItemId with | some s => isMongoId s | none => false) then
    [] else [MwErr.invalidMenuItemId i]) ++
  (if mwQuantityOk it.quantity then [] else [MwErr.invalidQuantity i])

/-- The per-item checks of `validateOrder` over the whole array. -/
def mwItemErrsFrom (i : Nat) : List RawItem → List MwErr
  | [] => []
  | it :: rest => mwItemErrs i it ++ mwItemErrsFrom (i + 1) rest

/-- All errors of the `validateOrder` middleware chain (`valdation.js`
lines 4-19): optional MongoId `tableId`, `items` must be an array, and the
per-item checks (wildcard validators see no instances when `items` is not
an array). -/
def validateOrderErrors (b : CreateBody) : List MwErr :=
  (match b.tableId with
   | some t => if isMongoId t then [] else [MwErr.invalidTableId]
   | none => []) ++
  (match b.items with
   | ItemsField.arr l => mwItemErrsFrom 0 l
   | _ => [MwErr.itemsNotArray])

/-- The full POST `/api/orders` pipeline (`orderRoutes.js` lines 29-33):
`validateOrder`, then `handleValidationErrors` (which responds 400
"Validation failed" on any middleware error, `valdation.js` lines 36-46),
then the `createOrder` controller. -/
def createOrderRoute (b : CreateBody) (user : Option User) (seed : Nat)
    (newId : String) (now : Nat) : CreateResult :=
  if validateOrderErrors b ≠ [] then
    { status := 400, message := "Validation failed", errors := [],
      data := none, saved := none }
  else
    createOrder b user seed newId now

/-- Result of an order-mutating endpoint: HTTP status, message, and the
stored document afterwards. -/
structure UpdResult where
  status : Nat
  message : String
  db : Option OrderDoc
  deriving DecidableEq

/-- The `updateOrderStatus` controller (lines 85-108): reject an invalid
status with 400, otherwise `findByIdAndUpdate` with `$set: { status }` —
404 when no order has the id, else the status is overwritten
unconditionally. -/
def updateOrderStatus (s : String) (ord : Option OrderDoc) : UpdResult :=
  if ¬ isValidOrderStatus s then
    { status := 400, message := "Invalid status", db := ord }
  else
    match ord with
    | none => { status := 404, message := "Order not found", db := none }
    | some o =>
      { status := 200, message := "Order status updated",
        db := some { o with status := s } }

/-- `status.toLowerCase().trim()` (controller line 119). -/
def normPayStatus (s : String) : String :=
  jsTrim (jsToLower s)

/-- Payment-update request body: `status` (present — the route's
`validateOrderPayment` middleware requires it) and optional `method`. -/
structure PayBody where
  status : String
  method : Option String
  deriving DecidableEq

/-- The `updateOrderPayment` controller (lines 114-183). The submitted
status is lowercased and trimmed; `method`, when truthy, likewise (lines
119-124, an empty string is falsy). An invalid normalized status yields
400 with the order untouched. Otherwise the `$set` document carries
`payment.status`, a `paidAt`/`refundedAt` timestamp when paid/refunded,
`payment.method` when the normalized method is still truthy, and
`status: completed` when the payment becomes paid while the order is
served (lines 136-158). -/
def updateOrderPayment (b : PayBody) (now : Nat) (ord : Option OrderDoc) :
    UpdResult :=
  let s := normPayStatus b.status
  let m : Option String :=
    match b.method with
    | some mm => if mm = "" then some mm else some (normPayStatus mm)
    | none => none
  if ¬ (s ∈ validPaymentStatuses) then
    { status := 400, message := "Invalid payment status", db := ord }
  else
    match ord with
    | none => { status := 404, message := "Order not found", db := none }
    | some o =>
      let payment : Payment :=
        { status := s,
          method := (match m with
                     | some mm => if mm = "" then o.payment.method else some mm
                     | none => o.payment.method),
          paidAt := if s = "paid" then some now else o.payment.paidAt,
          refundedAt := if s = "refunded" then some now
                        else o.payment.refundedAt }
      let newStatus :=
        if s = "paid" ∧ o.status = "served" then "completed" else o.status
      { status := 200, message := "Order payment updated successfully",
        db := some { o with payment := payment, status := newStatus } }

/-- The `cancelOrder` controller (lines 277-294): one conditional
`findOneAndUpdate` whose filter requires the status to be outside
`['completed', 'canceled']`; a match sets the status to canceled, no match
(missing order or terminal status) answers 404 with nothing written. -/
def cancelOrder (ord : Option OrderDoc) : UpdResult :=
  match ord with
  | none =>
    { status := 404, message := "Order not found or cannot be canceled",
      db := none }
  | some o =>
    if o.status = "completed" ∨ o.status = "canceled" then
      { status := 404, message := "Order not found or cannot be canceled",
        db := some o }
    else
      { status := 200, message := "Order canceled",
        db := some { o with status := "canceled" } }

/-- The full POST `/api/orders/:id/cancel` pipeline (`orderRoutes.js` lines
72-77): `authenticate` (modelled from the spec: the middleware file is not
under `src/`; the spec says unauthenticated requests are answered 401),
then the `param('id').isMongoId()` check with `handleValidationErrors`,
then `cancelOrder` — no role or ownership middleware is mounted. -/
def cancelRoute (user : Option User) (id : String) (ord : Option OrderDoc) :
    UpdResult :=
  match user with
  | none => { status := 401, message := "Authentication required", db := ord }
  | some _ =>
    if ¬ isMongoId id then
      { status := 400, message := "Validation failed", db := ord }
    else
      cancelOrder ord

/-- Query parameters of GET `/api/orders`. Numeric parameters are the
parse results of the page/limit strings (`none` models absence or a
non-numeric value). -/
structure ListQP where
  tableId : Option String
  status : Option String
  page : Option ℚ
  limit : Option ℚ
  deriving DecidableEq

/-- A Mongo query document over orders as built by `listOrders`: each
present field is an equality constraint. -/
structure MongoQuery where
  tableId : Option String
  status : Option String
  customerId : Option String
  deriving DecidableEq

/-- Whether an order document matches a query document. -/
def matchesQuery (q : MongoQuery) (o : OrderDoc) : Bool :=
  (match q.tableId with | some t => o.tableId = some t | none => true) &&
  (match q.status with | some s => o.status = s | none => true) &&
  (match q.customerId with | some c => o.customerId = some c | none => true)

/-- The query `listOrders` builds for an authenticated user (controller
lines 191-201): staff/admin range over all orders, narrowed by a truthy
`tableId` filter and by a truthy, valid `status` filter; every other role
is restricted to its own `customerId`. -/
def buildListQuery (u : User) (qp : ListQP) : MongoQuery :=
  if u.role = "staff" ∨ u.role = "admin" then
    { tableId := (match qp.tableId with
                  | some t => if t = "" then none else some t
                  | none => none),
      status := (match qp.status with
                 | some s => if s ≠ "" ∧ isValidOrderStatus s then some s
                             else none
                 | none => none),
      customerId := none }
  else
    { tableId := none, status := none, customerId := some u.uid }

/-- Sorting by `createdAt` descending (controller line 223). -/
def sortByCreatedAtDesc (l : List OrderDoc) : List OrderDoc :=
  l.insertionSort (fun a b => b.createdAt ≤ a.createdAt)

/-- Result of the list endpoint: HTTP status, message, the returned page
of orders, and the pagination echo (page, limit, total). -/
structure ListResult where
  status : Nat
  message : String
  data : List OrderDoc
  pagination : Option (ℤ × ℤ × Nat)
  deriving DecidableEq

/-- The `listOrders` controller (lines 189-242): 401 without a user;
otherwise filter the store by the role-scoped query, sort by creation time
descending, and slice by the parsed pagination parameters (page and limit
default to 1 and 20). -/
def listOrders (user : Option User) (qp : ListQP) (db : List OrderDoc) :
    ListResult :=
  match user with
  | none =>
    { status := 401, message := "Authentication required to list orders",
      data := [], pagination := none }
  | some u =>
    let q := buildListQuery u qp
    let page := jsParseIntOr qp.page 1
    let lim := jsParseIntOr qp.limit 20
    let skip := (page - 1) * lim
    let filtered := db.filter (matchesQuery q)
    let sorted := sortByCreatedAtDesc filtered
    { status := 200, message := "Orders retrieved",
      data := (sorted.drop skip.toNat).take lim.toNat,
      pagination := some (page, lim, filtered.length) }

/-- A 24-hex-character id, accepted by the MongoId format check. -/
def sampleMongoId : String := "0123456789abcdef01234567"

/-- A raw line item that passes both middleware and controller checks. -/
def sampleGoodItem : RawItem :=
  { menuItemId := some sampleMongoId, name := some "Pizza",
    price := some 10, quantity := some 2, qty := none, note := none }

/-- A creation body holding one valid item. -/
def sampleCreateBody : CreateBody :=
  { tableId := none, items := ItemsField.arr [sampleGoodItem], meta := none }

/-- A raw line item whose name is whitespace-only (and otherwise valid). -/
def sampleBadNameItem : RawItem :=
  { menuItemId := some sampleMongoId, name := some " ",
    price := some 10, quantity := some 2, qty := none, note := none }

/-- A creation body holding the whitespace-named item. -/
def sampleBadBody : CreateBody :=
  { tableId := none, items := ItemsField.arr [sampleBadNameItem], meta := none }

/-- A stored order in status served, owned by customer `owner1`. -/
def servedOrder : OrderDoc :=
  { oid := "o1", tableId := none, customerId := some "owner1",
    orderNumber := "ORD-1", items := [], totals := 0, status := "served",
    payment := defaultPayment, meta := "", createdAt := 0 }

/-- A stored order in the terminal status completed. -/
def completedOrder : OrderDoc := { servedOrder with status := "completed" }

/-- A stored order in status placed. -/
def placedOrder : OrderDoc := { servedOrder with status := "placed" }

/-- A customer (non-staff, non-admin) user. -/
def custUser : User := { uid := "u1", role := "customer" }

/-- A stored order owned by `custUser`. -/
def ownOrder : OrderDoc := { placedOrder with customerId := some "u1" }

/-- Query parameters with no filters and default pagination. -/
def emptyQP : ListQP :=
  { tableId := none, status := none, page := none, limit := none }

theorem errsFor_ne_nil_of_bad (i : Nat) (it : NormItem)
    (h : it.name = "" ∨ it.price = none ∨
      (∃ p, it.price = some p ∧ p ≤ 0) ∨ it.qty < 1) :
    errsFor i it ≠ [] := by
  unfold errsFor
  rcases h with h | h | ⟨p, hp, hple⟩ | h
  · simp [h]
  · simp [h]
  · simp [hp, hple]
  · simp [h]

theorem itemErrorsFrom_ne_nil_of_bad (l : List NormItem) (it : NormItem)
    (hmem : it ∈ l)
    (hbad : it.name = "" ∨ it.price = none ∨
      (∃ p, it.price = some p ∧ p ≤ 0) ∨ it.qty < 1) :
    ∀ i, itemErrorsFrom i l ≠ [] := by
  induction l with
  | nil => simp at hmem
  | cons a rest ih =>
    intro i
    rcases List.mem_cons.mp hmem with rfl | hmem'
    · simp only [itemErrorsFrom, ne_eq, List.append_eq_nil]
      intro hc
      exact errsFor_ne_nil_of_bad i it hbad hc.1
    · simp only [itemErrorsFrom, ne_eq, List.append_eq_nil]
      intro hc
      exact ih hmem' (i + 1) hc.2

theorem mwItemErrsFrom_nil_quantity (l : List RawItem) :
    ∀ i, mwItemErrsFrom i l = [] →
      ∀ it ∈ l, mwQuantityOk it.quantity = true := by
  induction l with
  | nil => simp
  | cons a rest ih =>
    intro i h it hmem
    simp only [mwItemErrsFrom, List.append_eq_nil] at h
    rcases List.mem_cons.mp hmem with rfl | hmem'
    · have h1 := h.1
      simp only [mwItemErrs, List.append_eq_nil] at h1
      by_cases hq : mwQuantityOk it.quantity
      · exact hq
      · simp [hq] at h1
    · exact ih (i + 1) h.2 it hmem'

/-- C8: for every order-creation request whose items field is missing, not
an array, or an empty array, the `createOrder` controller responds 400 with
the message "Order must contain at least one item", records no per-item
validation errors (line-item validation is never reached), and persists
nothing. -/
theorem C8_missing_items_rejected (b : CreateBody) (user : Option User)
    (seed : Nat) (newId : String) (now : Nat)
    (h : b.items = ItemsField.absent ∨ b.items = ItemsField.notArray ∨
      b.items = ItemsField.arr []) :
    createOrder b user seed newId now =
      { status := 400, message := "Order must contain at least one item",
        errors := [], data := none, saved := none } := by
  obtain ⟨bt, bi, bm⟩ := b
  rcases h with h | h | h <;> simp only at h <;> subst h <;> rfl

/-- Witness for C8 at a body with an absent items field. -/
theorem C8_missing_items_rejected_witness :
    createOrder { tableId := none, items := ItemsField.absent, meta := none }
        none 0 "id1" 0 =
      { status := 400, message := "Order must contain at least one item",
        errors := [], data := none, saved := none } :=
  C8_missing_items_rejected _ none 0 "id1" 0 (Or.inl rfl)

/-- C4: cancelOrder on an existing order in a terminal status (completed or
canceled) leaves the stored document unchanged and answers 404; on any
other existing order it sets the status to canceled and answers 200 — the
guard and the write are one conditional update, so nothing is written on
the error path. -/
theorem C4_cancel_precondition (o : OrderDoc) :
    ((o.status = "completed" ∨ o.status = "canceled") →
      cancelOrder (some o) =
        { status := 404, message := "Order not found or cannot be canceled",
          db := some o }) ∧
    (¬(o.status = "completed" ∨ o.status = "canceled") →
      cancelOrder (some o) =
        { status := 200, message := "Order canceled",
          db := some { o with status := "canceled" } }) := by
  constructor
  · intro h
    simp only [cancelOrder]
    rw [if_pos h]
  · intro h
    simp only [cancelOrder]
    rw [if_neg h]

/-- Witness for C4 at a completed order: cancellation is refused and the
document is unchanged. -/
theorem C4_cancel_precondition_witness :
    cancelOrder (some completedOrder) =
      { status := 404, message := "Order not found or cannot be canceled",
        db := some completedOrder } :=
  (C4_cancel_precondition completedOrder).1 (Or.inl rfl)

/-- C10: updateOrderStatus applies any valid requested status
unconditionally: for every existing order, whatever its current status
(including the terminal ones), the stored status becomes the requested
value and the response is 200. -/
theorem C10_status_set_unconditional (s : String) (o : OrderDoc)
    (hs : isValidOrderStatus s = true) :
    updateOrderStatus s (some o) =
      { status := 200, message := "Order status updated",
        db := some { o with status := s } } := by
  unfold updateOrderStatus
  rw [if_neg (by simp [hs])]

/-- Witness for C10: an order in the terminal status completed is moved
back to placed. -/
theorem C10_status_set_unconditional_witness :
    updateOrderStatus "placed" (some completedOrder) =
      { status := 200, message := "Order status updated",
        db := some { completedOrder with status := "placed" } } :=
  C10_status_set_unconditional "placed" completedOrder (by decide)

/-- C9: the cancel route runs only authentication and id-format validation
before the handler, and the handler reads neither role nor ownership: every
authenticated user, of any role and any relation to the order's customer,
cancels any order whose status is non-terminal. -/
theorem C9_cancel_no_ownership_check (u : User) (id : String) (o : OrderDoc)
    (hid : isMongoId id = true)
    (h1 : o.status ≠ "completed") (h2 : o.status ≠ "canceled") :
    cancelRoute (some u) id (some o) =
      { status := 200, message := "Order canceled",
        db := some { o with status := "canceled" } } := by
  simp only [cancelRoute]
  rw [if_neg (by simp [hid])]
  simp only [cancelOrder]
  rw [if_neg (by tauto)]

/-- Witness for C9: a plain customer who does not own the order (owner is
`owner1`, the caller is `u1`) cancels a placed order. -/
theorem C9_cancel_no_ownership_check_witness :
    cancelRoute (some custUser) sampleMongoId (some placedOrder) =
      { status := 200, message := "Order canceled",
        db := some { placedOrder with status := "canceled" } } :=
  C9_cancel_no_ownership_check custUser sampleMongoId placedOrder
    (by decide) (by decide) (by decide)

/-- C7: the two update operations never touch the line items or the totals
(totals are derived only at creation): updateOrderStatus changes at most
the status field, updateOrderPayment changes at most the payment sub-record
plus — exactly in the paid-while-served case — the status field, which then
becomes completed. -/
theorem C7_updates_preserve_items_totals (s : String) (b : PayBody)
    (now : Nat) (o : OrderDoc) :
    ((updateOrderStatus s (some o)).db.map (fun r =>
        (r.oid, r.tableId, r.customerId, r.orderNumber, r.items, r.totals,
         r.payment, r.meta, r.createdAt))) =
      some (o.oid, o.tableId, o.customerId, o.orderNumber, o.items, o.totals,
        o.payment, o.meta, o.createdAt) ∧
    ((updateOrderPayment b now (some o)).db.map (fun r =>
        (r.oid, r.tableId, r.customerId, r.orderNumber, r.items, r.totals,
         r.meta, r.createdAt))) =
      some (o.oid, o.tableId, o.customerId, o.orderNumber, o.items, o.totals,
        o.meta, o.createdAt) ∧
    (((updateOrderPayment b now (some o)).db.map OrderDoc.status) =
        some o.status ∨
      (normPayStatus b.status = "paid" ∧ o.status = "served" ∧
        ((updateOrderPayment b now (some o)).db.map OrderDoc.status) =
          some "completed")) := by
  refine ⟨?_, ?_, ?_⟩
  · simp only [updateOrderStatus]
    by_cases hs : isValidOrderStatus s = true
    · rw [if_neg (by simp [hs])]
      rfl
    · rw [if_pos (by simp [hs])]
      rfl
  · simp only [updateOrderPayment]
    by_cases hv : normPayStatus b.status ∈ validPaymentStatuses
    · rw [if_neg (by simp [hv])]
      rfl
    · rw [if_pos (by simp [hv])]
      rfl
  · simp only [updateOrderPayment]
    by_cases hv : normPayStatus b.status ∈ validPaymentStatuses
    · rw [if_neg (by simp [hv])]
      by_cases hps : normPayStatus b.status = "paid" ∧ o.status = "served"
      · right
        exact ⟨hps.1, hps.2, by simp [hps]⟩
      · left
        simp [hps]
    · rw [if_pos (by simp [hv])]
      left
      rfl

/-- C2: when every line item passes the controller's validation, the
`createOrder` controller persists an order with the normalized items, the
totals computed by `calculateOrderTotal`, an order number from
`generateOrderNumber`, and status placed, and responds 201 exposing id,
orderNumber, status, totals and createdAt. -/
theorem C2_valid_items_persisted (b : CreateBody) (user : Option User)
    (seed : Nat) (newId : String) (now : Nat) (a : RawItem)
    (rest : List RawItem) (hitems : b.items = ItemsField.arr (a :: rest))
    (hok : itemErrors ((a :: rest).map normalizeItem) = []) :
    createOrder b user seed newId now =
      { status := 201, message := "Order placed successfully", errors := [],
        data := some { id := newId, orderNumber := generateOrderNumber seed,
                       status := "placed",
                       totals :=
                         calculateOrderTotal ((a :: rest).map normalizeItem),
                       createdAt := now },
        saved := some { oid := newId, tableId := b.tableId.map jsTrim,
                        customerId := user.map User.uid,
                        orderNumber := generateOrderNumber seed,
                        items := (a :: rest).map normalizeItem,
                        totals :=
                          calculateOrderTotal ((a :: rest).map normalizeItem),
                        status := "placed", payment := defaultPayment,
                        meta := b.meta.getD "", createdAt := now } } := by
  obtain ⟨bt, bi, bm⟩ := b
  simp only at hitems
  subst hitems
  simp only [List.map_cons] at hok
  simp [createOrder, hok]

/-- Witness for C2 at a one-item body that passes validation. -/
theorem C2_valid_items_persisted_witness :
    (createOrder sampleCreateBody none 7 "id1" 5).status = 201 := by
  rw [C2_valid_items_persisted sampleCreateBody none 7 "id1" 5 sampleGoodItem
    [] rfl (by decide)]

/-- C3: when the (normalized) payment status written is paid and the
order's current status is served, the stored status becomes completed;
when the status written is not paid, or the order is not served, the
status field is untouched by the payment update. -/
theorem C3_paid_while_served_completes (b : PayBody) (now : Nat)
    (o : OrderDoc) :
    (normPayStatus b.status = "paid" → o.status = "served" →
      ((updateOrderPayment b now (some o)).db.map OrderDoc.status) =
        some "completed") ∧
    ((normPayStatus b.status ≠ "paid" ∨ o.status ≠ "served") →
      ((updateOrderPayment b now (some o)).db.map OrderDoc.status) =
        some o.status) := by
  constructor
  · intro h1 h2
    simp only [updateOrderPayment]
    rw [if_neg (by simp [h1, validPaymentStatuses])]
    simp [h1, h2]
  · intro h
    simp only [updateOrderPayment]
    by_cases hv : normPayStatus b.status ∈ validPaymentStatuses
    · rw [if_neg (by simp [hv])]
      have hps : ¬(normPayStatus b.status = "paid" ∧ o.status = "served") := by
        tauto
      simp [hps]
    · rw [if_pos (by simp [hv])]
      rfl

/-- Witness for C3: marking a served order paid completes it. -/
theorem C3_paid_while_served_completes_witness :
    ((updateOrderPayment { status := "paid", method := none } 0
        (some servedOrder)).db.map OrderDoc.status) = some "completed" :=
  (C3_paid_while_served_completes { status := "paid", method := none } 0
    servedOrder).1 (by decide) (by decide)

/-- C6 counterexample: the submitted status "PAID" is not one of
pending/paid/failed/refunded, yet the controller answers 200 and stores
payment status paid (it validates the lowercased, trimmed value, not the
submitted one), so the claim as stated fails. -/
theorem C6_counterexample :
    ¬("PAID" ∈ validPaymentStatuses) ∧
    servedOrder.payment.status = "pending" ∧
    (updateOrderPayment { status := "PAID", method := none } 0
      (some servedOrder)).status = 200 ∧
    ((updateOrderPayment { status := "PAID", method := none } 0
      (some servedOrder)).db.map (fun r => r.payment.status)) =
      some "paid" := by
  decide

/-- C6 amended: when the submitted status, after lowercasing and trimming,
is not one of pending/paid/failed/refunded, updateOrderPayment answers 400
"Invalid payment status" and the stored order (payment sub-record
included) is unchanged; when the normalized status is in that set, the
stored payment status equals the normalized value. -/
theorem C6_payment_status_validation (b : PayBody) (now : Nat)
    (o : OrderDoc) :
    (normPayStatus b.status ∉ validPaymentStatuses →
      updateOrderPayment b now (some o) =
        { status := 400, message := "Invalid payment status",
          db := some o }) ∧
    (normPayStatus b.status ∈ validPaymentStatuses →
      ((updateOrderPayment b now (some o)).db.map
        (fun r => r.payment.status)) = some (normPayStatus b.status)) := by
  constructor
  · intro h
    simp only [updateOrderPayment]
    rw [if_pos h]
  · intro h
    simp only [updateOrderPayment]
    rw [if_neg (not_not_intro h)]
    rfl

/-- Witness for C6 amended at a status that normalizes outside the enum. -/
theorem C6_payment_status_validation_witness :
    updateOrderPayment { status := "bogus", method := none } 0
        (some placedOrder) =
      { status := 400, message := "Invalid payment status",
        db := some placedOrder } :=
  (C6_payment_status_validation { status := "bogus", method := none } 0
    placedOrder).1 (by decide)

/-- C1: any creation request holding an item with an empty or
whitespace-only name, a non-positive or non-numeric price, or a quantity
below 1 is answered 400 "Validation failed" by the POST /api/orders
pipeline (the quantity bound by the validateOrder middleware, name and
price by the controller) and nothing is persisted. -/
theorem C1_invalid_item_rejected (b : CreateBody) (user : Option User)
    (seed : Nat) (newId : String) (now : Nat) (l : List RawItem)
    (it : RawItem) (hitems : b.items = ItemsField.arr l) (hmem : it ∈ l)
    (hbad : jsTrim (it.name.getD "") = "" ∨ it.price = none ∨
      (∃ p, it.price = some p ∧ p ≤ 0) ∨
      (∃ q, it.quantity = some q ∧ q < 1)) :
    (createOrderRoute b user seed newId now).status = 400 ∧
    (createOrderRoute b user seed newId now).message = "Validation failed" ∧
    (createOrderRoute b user seed newId now).saved = none := by
  by_cases hmw : validateOrderErrors b = []
  case neg =>
    simp only [createOrderRoute]
    rw [if_pos hmw]
    exact ⟨rfl, rfl, rfl⟩
  case pos =>
    have hqok : mwQuantityOk it.quantity = true := by
      have h2 : mwItemErrsFrom 0 l = [] := by
        have hmw' := hmw
        simp only [validateOrderErrors, hitems, List.append_eq_nil] at hmw'
        exact hmw'.2
      exact mwItemErrsFrom_nil_quantity l 0 h2 it hmem
    have hbadnorm : (normalizeItem it).name = "" ∨
        (normalizeItem it).price = none ∨
        (∃ p, (normalizeItem it).price = some p ∧ p ≤ 0) ∨
        (normalizeItem it).qty < 1 := by
      rcases hbad with h | h | h | ⟨q, hq, hlt⟩
      · exact Or.inl (by simpa [normalizeItem] using h)
      · exact Or.inr (Or.inl (by simpa [normalizeItem] using h))
      · exact Or.inr (Or.inr (Or.inl (by simpa [normalizeItem] using h)))
      · exfalso
        rw [hq] at hqok
        simp only [mwQuantityOk, Bool.and_eq_true, decide_eq_true_eq] at hqok
        have hcast : (q.num : ℚ) = q := by
          have hd := Rat.num_div_den q
          rw [hqok.1] at hd
          simpa using hd
        have hge : (1 : ℚ) ≤ q := by
          rw [← hcast]
          exact_mod_cast hqok.2
        exact absurd hlt (not_lt.mpr hge)
    have herr : itemErrors (l.map normalizeItem) ≠ [] :=
      itemErrorsFrom_ne_nil_of_bad (l.map normalizeItem) (normalizeItem it)
        (List.mem_map_of_mem _ hmem) hbadnorm 0
    simp only [createOrderRoute]
    rw [if_neg (by simp [hmw])]
    obtain ⟨a, rest, rfl⟩ : ∃ a rest, l = a :: rest := by
      cases l with
      | nil => simp at hmem
      | cons a rest => exact ⟨a, rest, rfl⟩
    obtain ⟨bt, bi, bm⟩ := b
    simp only at hitems
    subst hitems
    simp only [List.map_cons] at herr
    simp [createOrder, herr]

/-- Witness for C1 at a request whose single item has a whitespace-only
name. -/
theorem C1_invalid_item_rejected_witness :
    (createOrderRoute sampleBadBody none 0 "id1" 0).status = 400 ∧
    (createOrderRoute sampleBadBody none 0 "id1" 0).message =
      "Validation failed" ∧
    (createOrderRoute sampleBadBody none 0 "id1" 0).saved = none :=
  C1_invalid_item_rejected sampleBadBody none 0 "id1" 0 [sampleBadNameItem]
    sampleBadNameItem rfl (by decide) (Or.inl (by decide))

theorem mem_listOrders_data (u : User) (qp : ListQP) (db : List OrderDoc)
    (o : OrderDoc) (h : o ∈ (listOrders (some u) qp db).data) :
    matchesQuery (buildListQuery u qp) o = true := by
  simp only [listOrders] at h
  have h1 := List.mem_of_mem_take h
  have h2 := List.mem_of_mem_drop h1
  have h3 : o ∈ db.filter (matchesQuery (buildListQuery u qp)) := by
    have hperm := List.perm_insertionSort
      (fun a b : OrderDoc => b.createdAt ≤ a.createdAt)
      (db.filter (matchesQuery (buildListQuery u qp)))
    exact hperm.mem_iff.mp (by simpa [sortByCreatedAtDesc] using h2)
  exact (List.mem_filter.mp h3).2

/-- C5: listing is role-scoped — an unauthenticated request is answered
401 with no orders; for a staff or admin caller the query carries no
customer restriction (it ranges over all orders, narrowed only by the
truthy tableId filter and the truthy, valid status filter, both reflected
in every returned order); for any other caller every returned order
belongs to the caller. -/
theorem C5_list_role_scoped (u : User) (qp : ListQP) (db : List OrderDoc) :
    ((listOrders none qp db).status = 401 ∧ (listOrders none qp db).data = []) ∧
    ((u.role = "staff" ∨ u.role = "admin") →
      (buildListQuery u qp).customerId = none ∧
      (qp.tableId = none → qp.status = none →
        db.filter (matchesQuery (buildListQuery u qp)) = db) ∧
      (∀ o ∈ (listOrders (some u) qp db).data,
        (∀ t, qp.tableId = some t → t ≠ "" → o.tableId = some t) ∧
        (∀ s, qp.status = some s → s ≠ "" → isValidOrderStatus s = true →
          o.status = s))) ∧
    (u.role ≠ "staff" → u.role ≠ "admin" →
      ∀ o ∈ (listOrders (some u) qp db).data,
        o.customerId = some u.uid) := by
  refine ⟨⟨rfl, rfl⟩, ?_, ?_⟩
  · intro hrole
    refine ⟨?_, ?_, ?_⟩
    · simp only [buildListQuery]
      rw [if_pos hrole]
    · intro ht hs
      apply List.filter_eq_self.mpr
      intro o _
      simp only [buildListQuery] at *
      rw [if_pos hrole]
      simp [matchesQuery, ht, hs]
    · intro o ho
      have hm := mem_listOrders_data u qp db o ho
      simp only [buildListQuery] at hm
      rw [if_pos hrole] at hm
      constructor
      · intro t htid hne
        simp only [matchesQuery, htid, Bool.and_eq_true] at hm
        have := hm.1.1
        rw [if_neg hne] at this
        simpa using this
      · intro s hsid hne hval
        simp only [matchesQuery, hsid, Bool.and_eq_true] at hm
        have := hm.1.2
        rw [if_pos ⟨hne, hval⟩] at this
        simpa using this
  · intro h1 h2 o ho
    have hm := mem_listOrders_data u qp db o ho
    simp only [buildListQuery] at hm
    rw [if_neg (by tauto)] at hm
    simp only [matchesQuery, Bool.and_eq_true] at hm
    simpa using hm.2

/-- Witness for C5: a customer caller sees only orders whose customerId is
their own id. -/
theorem C5_list_role_scoped_witness :
    ownOrder.customerId = some custUser.uid :=
  (C5_list_role_scoped custUser emptyQP [ownOrder]).2.2 (by decide)
    (by decide) ownOrder (by decide)
